import Mathlib

/-!
Verification development for the lamp-color detection system
(sources: src/main.py and src/app.py of the opencv_ramp_checker repository).

Conventions of the shallow embedding:
  * Python floats (percentages, brightness, wall-clock seconds) are modelled
    as rationals; pixel counts are naturals; pixel coordinates are integers.
  * The loosely typed JSON settings document is modelled by the inductive
    type JVal; dot-path keys appear as lists of key segments.
  * Console printing is elided; the strings written into judgment "reasons"
    keep their per-branch structure but elide the numeric interpolation the
    source performs with format strings.
  * cv2 library primitives that turn a BGR byte image into an HSV pixel
    grid (GaussianBlur, saturation boost, cvtColor) are external code and
    are abstracted as a parameter; everything after that point (range
    masks, pixel counting) is modelled concretely.
-/

/-! ## Settings document (setting.json), main.py lines 32-100 -/

/-- A JSON-like value, as stored in setting.json. -/
inductive JVal where
  | num (q : ℚ)
  | str (s : String)
  | boolean (b : Bool)
  | obj (fields : List (String × JVal))

/-- Field access `value[key]`; a non-object or a missing key raises
KeyError or TypeError in the source, modelled as `none`. -/
def jget : JVal → String → Option JVal
  | .obj fields, key => (fields.find? (fun f => f.1 = key)).map (fun f => f.2)
  | _, _ => none

/-- The loop `for key in keys: value = value[key]` of get_setting
(main.py lines 75-79); the dot path is already split into segments. -/
def lookupPath : JVal → List String → Option JVal
  | v, [] => some v
  | v, k :: ks =>
    match jget v k with
    | some v2 => lookupPath v2 ks
    | none => none

/-- get_setting (main.py lines 67-82): returns the stored value, or the
supplied default when settings is not loaded or the path is absent. -/
def get_setting (settings : Option JVal) (key_path : List String)
    (default_value : JVal) : JVal :=
  match settings with
  | none => default_value
  | some s => (lookupPath s key_path).getD default_value

/-- Numeric reading of a JSON value; a non-number would be a TypeError at
the use site in the source, modelled as `none`. -/
def jnum : JVal → Option ℚ
  | .num q => some q
  | _ => none

/-- load_settings (main.py lines 32-50): the argument is the parse result
of setting.json (`none` = file missing or json.load failed). The function
succeeds exactly when the file parsed; it performs no content validation. -/
def load_settings (parsed : Option JVal) : Bool :=
  parsed.isSome

/-- get_notification_threshold (main.py lines 1018-1025), in seconds.
In debug mode it reads detection.debug_notification_threshold_seconds
(default 10); otherwise detection.notification_threshold_minutes
(default 10) times 60. -/
def get_notification_threshold (debug_mode : Bool) (settings : Option JVal) :
    Option ℚ :=
  if debug_mode then
    jnum (get_setting settings
      ["detection", "debug_notification_threshold_seconds"] (.num 10))
  else
    (jnum (get_setting settings
      ["detection", "notification_threshold_minutes"] (.num 10))).map
      (fun m => m * 60)

/-! ## Settings validation (app.py lines 67-98) -/

/-- One numeric range check of validate_settings: the tuple list
numeric_checks, app.py lines 78-83. -/
def numeric_checks : List (List String × ℚ × ℚ) :=
  [ (["detection", "detection_interval_seconds"], 1, 3600),
    (["detection", "notification_threshold_minutes"], 1, 120),
    (["detection", "color_detection_threshold_percentage"], 0, 100),
    (["camera", "search_range"], 1, 10) ]

/-- Error text for one numeric check; the source interpolates the dotted
key path into the message. -/
def rangeError (path : List String) : String :=
  String.intercalate "." path ++ "の値が範囲外です"

/-- Error text when a key path is missing (or its traversal or comparison
raises, both caught by the same except clause in the source). -/
def missingError (path : List String) : String :=
  String.intercalate "." path ++ "が見つかりません"

/-- Coordinate completeness test of validate_settings: all four corner
keys present in the per-color coordinates object. -/
def coordsComplete (coords : JVal) : Bool :=
  ["x1", "y1", "x2", "y2"].all (fun k => (jget coords k).isSome)

/-- Reads one integer corner from a coordinates object (numeric values in
a well-formed settings file). -/
def coordNum (coords : JVal) (k : String) : Option ℚ :=
  (jget coords k).bind jnum

/-- validate_settings (app.py lines 67-98): collects error strings; an
empty list means the settings pass validation. -/
def validate_settings (s : JVal) : List String :=
  let coordErrors :=
    (["orange", "green"] : List String).flatMap (fun color =>
      let coords := (lookupPath s ["coordinates", color]).getD (.obj [])
      if coordsComplete coords then
        match coordNum coords "x1", coordNum coords "x2",
              coordNum coords "y1", coordNum coords "y2" with
        | some x1, some x2, some y1, some y2 =>
          if x2 ≤ x1 ∨ y2 ≤ y1 then [color ++ "の座標が無効です"] else []
        | _, _, _, _ => [color ++ "の座標が無効です"]
      else [color ++ "の座標が不完全です"])
  let numErrors :=
    numeric_checks.flatMap (fun c =>
      match lookupPath s c.1 with
      | some v =>
        match jnum v with
        | some q =>
          if q < c.2.1 ∨ c.2.2 < q then [rangeError c.1] else []
        | none => [missingError c.1]
      | none => [missingError c.1])
  coordErrors ++ numErrors

/-! ## Region extraction (main.py lines 559-605, crop_and_save_all_colors) -/

/-- A region rectangle `(x1, y1, x2, y2)`, the per-color coordinates of
get_color_coordinates. -/
structure Rect where
  x1 : Int
  y1 : Int
  x2 : Int
  y2 : Int

/-- Coordinate clamping of crop_and_save_all_colors (main.py lines
580-584): each coordinate is clamped into `[0, width]` resp. `[0, height]`
of the frame. -/
def clampRect (width height : Nat) (r : Rect) : Rect :=
  { x1 := max 0 (min r.x1 (width : Int)),
    y1 := max 0 (min r.y1 (height : Int)),
    x2 := max 0 (min r.x2 (width : Int)),
    y2 := max 0 (min r.y2 (height : Int)) }

/-- Extraction of one color region (main.py lines 576-591): clamp, reject
the rectangle when the clamped bounds are degenerate, otherwise slice
`original_image[y1:y2, x1:x2]`. The frame is a list of pixel rows. -/
def crop_region {α : Type} (width height : Nat) (r : Rect)
    (frame : List (List α)) : Option (List (List α)) :=
  let c := clampRect width height r
  if c.x2 ≤ c.x1 ∨ c.y2 ≤ c.y1 then none
  else
    some (((frame.drop c.y1.toNat).take (c.y2 - c.y1).toNat).map
      (fun row => (row.drop c.x1.toNat).take (c.x2 - c.x1).toNat))

/-! ## Color classifier (main.py lines 611-730) -/

/-- An HSV pixel as produced by cv2.cvtColor(..., COLOR_BGR2HSV). -/
structure HSV where
  h : Nat
  s : Nat
  v : Nat
deriving Repr, DecidableEq

/-- cv2.inRange for a single pixel: inclusive bounds on every channel. -/
def inRange (lower upper p : HSV) : Bool :=
  lower.h ≤ p.h && p.h ≤ upper.h &&
  lower.s ≤ p.s && p.s ≤ upper.s &&
  lower.v ≤ p.v && p.v ≤ upper.v

/-- Pixel count of the union of the range masks for one color class
(main.py lines 707-713: bitwise_or of the masks, then countNonZero). -/
def countPixels (ranges : List (HSV × HSV)) (img : List HSV) : Nat :=
  (img.filter (fun p => ranges.any (fun lu => inRange lu.1 lu.2 p))).length

/-- get_default_color_ranges (main.py lines 622-631). -/
def get_default_color_ranges : List (String × List (HSV × HSV)) :=
  [("オレンジ", [(⟨11, 50, 50⟩, ⟨25, 255, 255⟩)]),
   ("緑", [(⟨40, 50, 50⟩, ⟨80, 255, 255⟩)])]

/-- get_enhanced_color_ranges (main.py lines 633-644). -/
def get_enhanced_color_ranges : List (String × List (HSV × HSV)) :=
  [("オレンジ", [(⟨8, 30, 30⟩, ⟨30, 255, 255⟩)]),
   ("緑", [(⟨35, 30, 30⟩, ⟨85, 255, 255⟩)])]

/-- get_strict_color_ranges (main.py lines 646-657). -/
def get_strict_color_ranges : List (String × List (HSV × HSV)) :=
  [("オレンジ", [(⟨12, 80, 80⟩, ⟨25, 255, 255⟩)]),
   ("緑", [(⟨45, 80, 80⟩, ⟨75, 255, 255⟩)])]

/-- get_adaptive_color_ranges (main.py lines 659-669): preset selection by
the configured detection.color_detection_mode string (default strict). -/
def get_adaptive_color_ranges (color_mode : String) :
    List (String × List (HSV × HSV)) :=
  if color_mode = "strict" then get_strict_color_ranges
  else if color_mode = "enhanced" then get_enhanced_color_ranges
  else get_default_color_ranges

/-- analyze_lamp_color (main.py lines 688-716). `toHSV` abstracts the cv2
preprocessing pipeline applied to a readable image (GaussianBlur, the
1.2x saturation boost, and the BGR to HSV conversion), all external
library code; the per-class mask counting after it is concrete. An
unreadable image (`none`, as returned by load_image) yields `none`
(main.py lines 690-691). -/
def analyze_lamp_color {α : Type} (toHSV : α → List HSV)
    (color_ranges : List (String × List (HSV × HSV))) (image : Option α) :
    Option (List (String × Nat)) :=
  match image with
  | none => none
  | some img =>
    some (color_ranges.map (fun cr => (cr.1, countPixels cr.2 (toHSV img))))

/-! ## Per-region analysis result (main.py lines 882-916) -/

/-- The result dict built by analyze_single_image, restricted to the
fields the judgment engine and the sampling loop read (file_name,
is_bright and the raw all_colors mapping are display-only). -/
structure AnalysisResult where
  expected_color : String
  expected_pixels : Nat
  total_color_pixels : Nat
  percentage : ℚ
  brightness : ℚ
deriving Repr, DecidableEq

/-- The percentage computation of analyze_single_image (main.py lines
893-900): the expected class pixel count over the region total across
both classes, as a percentage; 0 when nothing was classified. -/
def mk_analysis_result (expected_color : String)
    (expected_pixels total_pixels : Nat) (brightness : ℚ) : AnalysisResult :=
  { expected_color := expected_color,
    expected_pixels := expected_pixels,
    total_color_pixels := total_pixels,
    percentage :=
      if 0 < total_pixels then
        (expected_pixels : ℚ) / (total_pixels : ℚ) * 100
      else 0,
    brightness := brightness }

/-! ## Judgment engine (main.py lines 918-1011, comprehensive_judgment) -/

/-- The three detection thresholds read from settings at the top of
comprehensive_judgment (main.py lines 923-926), with their get_setting
defaults 50.0 / 100.0 / 100. -/
structure DetectConfig where
  threshold : ℚ
  brightness_threshold : ℚ
  minimum_pixel_count : Nat
deriving Repr, DecidableEq

/-- The get_setting defaults of the three judgment thresholds. -/
def defaultConfig : DetectConfig :=
  { threshold := 50, brightness_threshold := 100, minimum_pixel_count := 100 }

/-- The per-color entry of the scores dict (main.py lines 957-967). -/
structure Score where
  score : ℚ
  percentage : ℚ
  brightness : ℚ
  expected_pixels : Nat
  total_pixels : Nat
  meets_percentage_threshold : Bool
  meets_brightness_threshold : Bool
  meets_pixel_threshold : Bool
  all_conditions_met : Bool
deriving Repr, DecidableEq

/-- Evaluation of one analysis result inside the scores loop of
comprehensive_judgment (main.py lines 931-967). -/
def evalResult (cfg : DetectConfig) (r : AnalysisResult) : Score :=
  let mp := decide (cfg.threshold ≤ r.percentage)
  let mb := decide (cfg.brightness_threshold ≤ r.brightness)
  let mx := decide (cfg.minimum_pixel_count ≤ r.expected_pixels)
  { score := (if mp then r.percentage else 0) + (if mb then 15 else 0) +
      (if mx then 10 else 0),
    percentage := r.percentage,
    brightness := r.brightness,
    expected_pixels := r.expected_pixels,
    total_pixels := r.total_color_pixels,
    meets_percentage_threshold := mp,
    meets_brightness_threshold := mb,
    meets_pixel_threshold := mx,
    all_conditions_met := mp && mb && mx }

/-- Python max over the nonempty valid_colors list with key score
(main.py line 983): the first entry of maximal score wins ties. -/
def pickBest (x : String × Score) (xs : List (String × Score)) :
    String × Score :=
  xs.foldl (fun acc y => if acc.2.score < y.2.score then y else acc) x

/-- The failed-condition fragments gathered for a color that did not meet
every condition (main.py lines 998-1004); numeric interpolation elided. -/
def failedConds (s : Score) : List String :=
  (if s.meets_percentage_threshold then [] else ["含有率"]) ++
  (if s.meets_brightness_threshold then [] else ["明度"]) ++
  (if s.meets_pixel_threshold then [] else ["ピクセル数"])

/-- comprehensive_judgment returns a 3-tuple on the early guard and a
4-tuple (judgment, confidence, reasons, scores) on every other path
(main.py lines 920-921 vs 980 and 1011). -/
inductive JudgeOutput where
  | incomplete (judgment : String) (confidence : ℚ) (reasons : List String)
  | complete (judgment : String) (confidence : ℚ) (reasons : List String)
      (scores : List (String × Score))
deriving Repr, DecidableEq

/-- The verdict string of either arity of result. -/
def JudgeOutput.judgmentOf : JudgeOutput → String
  | .incomplete j _ _ => j
  | .complete j _ _ _ => j

/-- The confidence of either arity of result. -/
def JudgeOutput.confidenceOf : JudgeOutput → ℚ
  | .incomplete _ c _ => c
  | .complete _ c _ _ => c

/-- Whether the result is the 4-tuple shape. -/
def JudgeOutput.isComplete : JudgeOutput → Bool
  | .incomplete _ _ _ => false
  | .complete _ _ _ _ => true

/-- comprehensive_judgment (main.py lines 918-1011). The scores dict is
kept in results order; reason strings keep their branch structure with
numeric interpolation elided. -/
def comprehensive_judgment (cfg : DetectConfig)
    (results : List AnalysisResult) : JudgeOutput :=
  if results.length ≠ 2 then
    .incomplete "判定不可" 0 ["分析結果が不完全です"]
  else
    let scores := results.map (fun r => (r.expected_color, evalResult cfg r))
    let valid := scores.filter (fun cs => cs.2.all_conditions_met)
    match valid with
    | [] =>
      .complete "不明" 0
        ["すべての色が厳格な判定条件を満たしませんでした",
         "必要条件: 含有率, 明度, ピクセル数の各閾値"] scores
    | v :: vs =>
      let best := pickBest v vs
      let others := scores.filter (fun cs => cs.1 ≠ best.1)
      let otherReasons := others.flatMap (fun cs =>
        if cs.2.all_conditions_met then []
        else [cs.1 ++ "は条件不足: " ++ String.intercalate ", " (failedConds cs.2)])
      .complete best.1 (min 95 best.2.score)
        ([best.1 ++ "が全ての判定条件を満たしました:",
          "含有率", "明度", "検出ピクセル数"] ++ otherReasons) scores

/-- The conjunction of the three acceptance conditions of the strict
judgment policy, for one region result. -/
def satisfiesAllThree (cfg : DetectConfig) (r : AnalysisResult) : Prop :=
  cfg.threshold ≤ r.percentage ∧
  cfg.brightness_threshold ≤ r.brightness ∧
  cfg.minimum_pixel_count ≤ r.expected_pixels

instance (cfg : DetectConfig) (r : AnalysisResult) :
    Decidable (satisfiesAllThree cfg r) := by
  unfold satisfiesAllThree; infer_instance

/-! ## Detection state machine (main.py lines 1063-1150) -/

/-- The module-level detection state of main.py (lines 20-22):
current_state (None or True; modelled as Bool with false = None),
orange_detection_start_time, notification_sent. -/
structure DetectionState where
  current_state : Bool
  orange_detection_start_time : Option ℚ
  notification_sent : Bool
deriving Repr, DecidableEq

/-- The initial (and manually reset) state: inactive, no episode start,
no notification sent (main.py lines 20-22 and 388-391). -/
def initState : DetectionState :=
  { current_state := false,
    orange_detection_start_time := none,
    notification_sent := false }

/-- One log_to_csv invocation made by update_detection_state: the
argument tuple (event_type, detection_result, orange_percentage,
green_percentage, duration_seconds, image_file). -/
structure CsvEvent where
  event_type : String
  detection_result : String
  orange_percentage : ℚ
  green_percentage : ℚ
  duration_seconds : ℚ
  image_file : String
deriving Repr, DecidableEq

/-- update_detection_state (main.py lines 1063-1150). Returns the new
state, the list of log_to_csv records emitted during the transition, and
whether send_notification fired. `current_time` is datetime.now() as
seconds; elapsed times are wall-clock deltas from the episode start. -/
def update_detection_state (threshold_seconds : ℚ) (judgment : String)
    (orange_percentage green_percentage : ℚ) (image_file : String)
    (current_time : ℚ) (st : DetectionState) :
    DetectionState × List CsvEvent × Bool :=
  if judgment = "オレンジ" then
    if st.current_state ≠ true then
      ({ current_state := true,
         orange_detection_start_time := some current_time,
         notification_sent := false },
       [⟨"orange_start", judgment, orange_percentage, green_percentage, 0,
         image_file⟩], false)
    else
      match st.orange_detection_start_time, st.notification_sent with
      | some t0, false =>
        let elapsed := current_time - t0
        if threshold_seconds ≤ elapsed then
          ({ st with notification_sent := true },
           [⟨"notification", judgment, orange_percentage, green_percentage,
             elapsed, image_file⟩], true)
        else
          (st, [⟨"orange_continue", judgment, orange_percentage,
            green_percentage, elapsed, image_file⟩], false)
      | _, _ => (st, [], false)
  else if judgment = "緑" then
    match st.current_state, st.orange_detection_start_time with
    | true, some t0 =>
      (initState, [⟨"orange_end", judgment, orange_percentage,
        green_percentage, current_time - t0, image_file⟩], false)
    | _, _ =>
      (initState, [⟨"green_detection", judgment, orange_percentage,
        green_percentage, 0, image_file⟩], false)
  else
    match st.current_state, st.orange_detection_start_time with
    | true, some t0 =>
      (initState, [⟨"orange_interrupted", judgment, orange_percentage,
        green_percentage, current_time - t0, image_file⟩], false)
    | _, _ =>
      (initState, [⟨"unknown_detection", judgment, orange_percentage,
        green_percentage, 0, image_file⟩], false)

/-- One sampling-cycle input of the state machine: the judgment string and
the per-cycle percentages, source image name and wall-clock time. -/
structure JStep where
  judgment : String
  orange_percentage : ℚ
  green_percentage : ℚ
  image_file : String
  time : ℚ
deriving Repr, DecidableEq

/-- Runs update_detection_state over a sequence of sampling cycles,
concatenating the emitted log records and counting notification firings. -/
def runMachine (thr : ℚ) (st : DetectionState) :
    List JStep → DetectionState × List CsvEvent × Nat
  | [] => (st, [], 0)
  | s :: rest =>
    let r1 := update_detection_state thr s.judgment s.orange_percentage
      s.green_percentage s.image_file s.time st
    let r2 := runMachine thr r1.1 rest
    (r2.1, r1.2.1 ++ r2.2.1, (if r1.2.2 then 1 else 0) + r2.2.2)

/-- The state-machine invariant of the spec: the episode start time is
present exactly when the state is active, and the notified flag implies
an active state. -/
def StateInv (st : DetectionState) : Prop :=
  (st.orange_detection_start_time.isSome ↔ st.current_state = true) ∧
  (st.notification_sent = true → st.current_state = true)

instance (st : DetectionState) : Decidable (StateInv st) := by
  unfold StateInv; infer_instance

/-! ## Episode log (main.py lines 1196-1226, app.py lines 1241-1267) -/

/-- One physical row of data.csv, in the column order written by
log_to_csv. The three numeric columns are written through a "%.1f"
format; the stored value is modelled by `fmt1` below. -/
structure CsvRow where
  timestamp : String
  event_type : String
  detection_result : String
  orange_percentage : ℚ
  green_percentage : ℚ
  duration_seconds : ℚ
  mode : String
  image_file : String
deriving Repr, DecidableEq

/-- Rounding to one decimal place, modelling the "%.1f" formatting used
for the numeric CSV columns (exact on values that already have one
decimal place, which is all the development evaluates it on). -/
def fmt1 (q : ℚ) : ℚ := ((10 * q + 1 / 2).floor : ℚ) / 10

/-- log_to_csv (main.py lines 1196-1226): opens data.csv in append mode
and writes exactly one new row after the existing ones; `debug_flag` is
the module-level debug_mode, `timestamp` the formatted datetime.now(). -/
def log_to_csv (debug_flag : Bool) (timestamp : String)
    (event_type detection_result : String)
    (orange_percentage green_percentage duration_seconds : ℚ)
    (image_file : String) (file : List CsvRow) : List CsvRow :=
  file ++ [{ timestamp := timestamp,
             event_type := event_type,
             detection_result := detection_result,
             orange_percentage := fmt1 orange_percentage,
             green_percentage := fmt1 green_percentage,
             duration_seconds := fmt1 duration_seconds,
             mode := if debug_flag then "debug" else "normal",
             image_file := image_file }]

/-- The dict produced per row by load_all_detection_data (app.py lines
1254-1262); the debug_mode column is consumed by the filter and not
carried through. -/
structure DetectionData where
  timestamp : String
  event_type : String
  detection_result : String
  orange_percentage : ℚ
  green_percentage : ℚ
  duration_seconds : ℚ
  image_file : String
deriving Repr, DecidableEq

/-- load_all_detection_data (app.py lines 1241-1267): reads data.csv in
order, keeping only rows whose debug_mode column is "normal". -/
def load_all_detection_data (file : List CsvRow) : List DetectionData :=
  (file.filter (fun r => r.mode = "normal")).map (fun r =>
    { timestamp := r.timestamp,
      event_type := r.event_type,
      detection_result := r.detection_result,
      orange_percentage := r.orange_percentage,
      green_percentage := r.green_percentage,
      duration_seconds := r.duration_seconds,
      image_file := r.image_file })

/-- One append request as issued by a caller of log_to_csv (the record
before timestamping columns are formatted). -/
structure AppendReq where
  timestamp : String
  event_type : String
  detection_result : String
  orange_percentage : ℚ
  green_percentage : ℚ
  duration_seconds : ℚ
  image_file : String
deriving Repr, DecidableEq

/-- Appends a sequence of records through log_to_csv, oldest first. -/
def appendAll (debug_flag : Bool) (reqs : List AppendReq)
    (file : List CsvRow) : List CsvRow :=
  reqs.foldl (fun f r => log_to_csv debug_flag r.timestamp r.event_type
    r.detection_result r.orange_percentage r.green_percentage
    r.duration_seconds r.image_file f) file

/-- The row that log_to_csv writes for one request. -/
def reqRow (debug_flag : Bool) (r : AppendReq) : CsvRow :=
  { timestamp := r.timestamp,
    event_type := r.event_type,
    detection_result := r.detection_result,
    orange_percentage := fmt1 r.orange_percentage,
    green_percentage := fmt1 r.green_percentage,
    duration_seconds := fmt1 r.duration_seconds,
    mode := if debug_flag then "debug" else "normal",
    image_file := r.image_file }

/-- The parsed record load_all_detection_data yields for a request whose
numeric fields survive the one-decimal formatting unchanged. -/
def reqData (r : AppendReq) : DetectionData :=
  { timestamp := r.timestamp,
    event_type := r.event_type,
    detection_result := r.detection_result,
    orange_percentage := r.orange_percentage,
    green_percentage := r.green_percentage,
    duration_seconds := r.duration_seconds,
    image_file := r.image_file }

/-! ## The per-cycle driver (main.py lines 1399-1515,
process_single_analysis) -/

/-- The orange/green percentage extraction loop of process_single_analysis
(main.py lines 1477-1485): the last matching result wins. -/
def extract_percentages (results : List AnalysisResult) : ℚ × ℚ :=
  results.foldl (fun acc r =>
    if r.expected_color = "オレンジ" then (r.percentage, acc.2)
    else if r.expected_color = "緑" then (acc.1, r.percentage)
    else acc) (0, 0)

/-- process_single_analysis (main.py lines 1399-1515), reduced to its
control flow: a missing image or a failed crop or an empty analysis list
returns False; otherwise the call
`judgment, confidence, reasons, scores = comprehensive_judgment(results)`
unpacks four names, so a 3-tuple result raises ValueError (modelled as
`Except.error`); on the 4-tuple path the detection state is updated and
the function returns True. Console reporting is elided. -/
def process_single_analysis (cfg : DetectConfig) (thr : ℚ)
    (image_found crop_ok : Bool) (results : List AnalysisResult)
    (image_file : String) (current_time : ℚ) (st : DetectionState) :
    Except String (Bool × DetectionState) :=
  if image_found = false then .ok (false, st)
  else if crop_ok = false then .ok (false, st)
  else if results.isEmpty then .ok (false, st)
  else
    match comprehensive_judgment cfg results with
    | .incomplete _ _ _ =>
      .error "ValueError: not enough values to unpack (expected 4, got 3)"
    | .complete judgment _ _ _ =>
      let p := extract_percentages results
      .ok (true, (update_detection_state thr judgment p.1 p.2 image_file
        current_time st).1)

/-! ## Theorems -/

/-- Both clamp bounds for one coordinate axis. -/
lemma clamp_mem (n : Nat) (x : Int) :
    0 ≤ max 0 (min x (n : Int)) ∧ max 0 (min x (n : Int)) ≤ (n : Int) :=
  ⟨le_max_left _ _, max_le (Int.natCast_nonneg n) (min_le_right _ _)⟩

/-- Claim C5: region extraction clamps every coordinate of the rectangle
into `[0, width] × [0, height]`, fails exactly when the clamped bounds are
degenerate (`x1 ≥ x2` or `y1 ≥ y2`), and otherwise yields the sub-image
at the clamped bounds, whose area is positive (in particular never
negative). -/
theorem crop_region_clamps_and_fails_iff (width height : Nat) (r : Rect)
    (frame : List (List Nat)) :
    (0 ≤ (clampRect width height r).x1 ∧
      (clampRect width height r).x1 ≤ width ∧
      0 ≤ (clampRect width height r).y1 ∧
      (clampRect width height r).y1 ≤ height ∧
      0 ≤ (clampRect width height r).x2 ∧
      (clampRect width height r).x2 ≤ width ∧
      0 ≤ (clampRect width height r).y2 ∧
      (clampRect width height r).y2 ≤ height) ∧
    (crop_region width height r frame = none ↔
      (clampRect width height r).x2 ≤ (clampRect width height r).x1 ∨
      (clampRect width height r).y2 ≤ (clampRect width height r).y1) ∧
    (∀ sub, crop_region width height r frame = some sub →
      (clampRect width height r).x1 < (clampRect width height r).x2 ∧
      (clampRect width height r).y1 < (clampRect width height r).y2 ∧
      0 < ((clampRect width height r).x2 - (clampRect width height r).x1) *
        ((clampRect width height r).y2 - (clampRect width height r).y1) ∧
      sub = ((frame.drop (clampRect width height r).y1.toNat).take
          ((clampRect width height r).y2 -
            (clampRect width height r).y1).toNat).map
        (fun row => (row.drop (clampRect width height r).x1.toNat).take
          ((clampRect width height r).x2 -
            (clampRect width height r).x1).toNat)) := by
  refine ⟨?_, ?_, ?_⟩
  · exact ⟨(clamp_mem width r.x1).1, (clamp_mem width r.x1).2,
      (clamp_mem height r.y1).1, (clamp_mem height r.y1).2,
      (clamp_mem width r.x2).1, (clamp_mem width r.x2).2,
      (clamp_mem height r.y2).1, (clamp_mem height r.y2).2⟩
  · by_cases hcond : (clampRect width height r).x2 ≤
        (clampRect width height r).x1 ∨
        (clampRect width height r).y2 ≤ (clampRect width height r).y1
    · simp [crop_region, hcond]
    · simp [crop_region, hcond]
  · intro sub hsub
    by_cases hcond : (clampRect width height r).x2 ≤
        (clampRect width height r).x1 ∨
        (clampRect width height r).y2 ≤ (clampRect width height r).y1
    · simp [crop_region, hcond] at hsub
    · push_neg at hcond
      obtain ⟨hx, hy⟩ := hcond
      refine ⟨hx, hy, mul_pos (sub_pos.2 hx) (sub_pos.2 hy), ?_⟩
      simp only [crop_region] at hsub
      rw [if_neg] at hsub
      · exact (Option.some_injective _ hsub).symm
      · push_neg
        exact ⟨hx, hy⟩

/-- Witness for C5: a concrete in-bounds rectangle on a 4 x 4 frame. -/
theorem crop_region_clamps_witness :
    crop_region 4 4 ⟨1, 1, 3, 3⟩
        [[0, 1, 2, 3], [4, 5, 6, 7], [8, 9, 10, 11], [12, 13, 14, 15]] =
      some [[5, 6], [9, 10]] ∧
    (clampRect 4 4 ⟨1, 1, 3, 3⟩).x1 < (clampRect 4 4 ⟨1, 1, 3, 3⟩).x2 ∧
    0 < ((clampRect 4 4 ⟨1, 1, 3, 3⟩).x2 - (clampRect 4 4 ⟨1, 1, 3, 3⟩).x1) *
      ((clampRect 4 4 ⟨1, 1, 3, 3⟩).y2 - (clampRect 4 4 ⟨1, 1, 3, 3⟩).y1) := by
  have h := (crop_region_clamps_and_fails_iff 4 4 ⟨1, 1, 3, 3⟩
    [[0, 1, 2, 3], [4, 5, 6, 7], [8, 9, 10, 11], [12, 13, 14, 15]]).2.2
    [[5, 6], [9, 10]] (by decide)
  exact ⟨by decide, h.1, h.2.2.1⟩

/-- Counterexample to claim C6: for an unreadable image (the `None`
returned by load_image) analyze_lamp_color returns `None` (main.py lines
690-691), not the all-zero mapping the claim requires. -/
theorem analyze_lamp_color_none_counterexample :
    analyze_lamp_color (fun _ : Unit => ([] : List HSV))
        get_strict_color_ranges none ≠ some [("オレンジ", 0), ("緑", 0)] := by
  simp [analyze_lamp_color]

/-- Claim C6 as amended: for a readable image the classifier always
returns a mapping with one count per configured class (it cannot return
`None` and, being total, never raises); an image none of whose pixels
matches any configured range (for example an all-black sub-image under
the strict preset) receives the all-zero mapping; for an unreadable
(`None`) image the classifier returns `None`, and its callers skip the
cycle. -/
theorem analyze_lamp_color_amended :
    (∀ (α : Type) (toHSV : α → List HSV)
        (ranges : List (String × List (HSV × HSV))) (img : α),
        (analyze_lamp_color toHSV ranges (some img)).isSome = true) ∧
    (∀ (α : Type) (toHSV : α → List HSV),
        analyze_lamp_color toHSV get_strict_color_ranges (none : Option α) =
          none) ∧
    (∀ (α : Type) (toHSV : α → List HSV) (img : α),
        (∀ p ∈ toHSV img, p = HSV.mk 0 0 0) →
        analyze_lamp_color toHSV get_strict_color_ranges (some img) =
          some [("オレンジ", 0), ("緑", 0)]) := by
  refine ⟨?_, ?_, ?_⟩
  · intro α toHSV ranges img
    simp [analyze_lamp_color]
  · intro α toHSV
    simp [analyze_lamp_color]
  · intro α toHSV img hblack
    have hcount : ∀ ranges : List (HSV × HSV),
        (∀ lu ∈ ranges, inRange lu.1 lu.2 (HSV.mk 0 0 0) = false) →
        countPixels ranges (toHSV img) = 0 := by
      intro ranges hr
      unfold countPixels
      rw [List.length_eq_zero]
      rw [List.filter_eq_nil_iff]
      intro p hp
      rw [hblack p hp]
      simp only [List.any_eq_true, not_exists]
      rintro lu ⟨hlu, hmatch⟩
      rw [hr lu hlu] at hmatch
      exact Bool.false_ne_true hmatch
    simp only [analyze_lamp_color, get_strict_color_ranges, List.map_cons,
      List.map_nil]
    rw [hcount _ (by decide), hcount _ (by decide)]

/-- Witness for the amended C6: a one-pixel all-black image. -/
theorem analyze_lamp_color_amended_witness :
    (∀ p ∈ [HSV.mk 0 0 0], p = HSV.mk 0 0 0) ∧
    analyze_lamp_color (fun _ : Unit => [HSV.mk 0 0 0])
        get_strict_color_ranges (some ()) = some [("オレンジ", 0), ("緑", 0)] :=
  ⟨by decide, analyze_lamp_color_amended.2.2 Unit (fun _ => [HSV.mk 0 0 0])
    () (by decide)⟩

/-- Counterexample to claim C8: the empty settings object fails
validate_settings (every safety threshold is missing), yet load_settings
accepts it at startup and get_notification_threshold silently substitutes
the built-in default (10 minutes = 600 seconds) during detection. -/
theorem config_validation_counterexample :
    validate_settings (JVal.obj []) ≠ [] ∧
    load_settings (some (JVal.obj [])) = true ∧
    get_notification_threshold false (some (JVal.obj [])) = some 600 ∧
    get_notification_threshold true (some (JVal.obj [])) = some 10 := by
  refine ⟨?_, rfl, ?_, ?_⟩
  · decide
  · simp only [get_notification_threshold, get_setting, lookupPath, jget,
      List.find?, Option.getD, jnum, Option.map]
    norm_num
  · rfl

/-- Claim C8 as amended: content validation of the settings happens only
in the web application's settings-update API (validate_settings); the
startup load in main.py succeeds for every parseable settings document,
and whenever the notification-threshold key is absent the detection path
falls back to the get_setting default (600 seconds in normal mode) with
only a console warning. -/
theorem config_load_never_validates :
    (∀ v : JVal, load_settings (some v) = true) ∧
    (∀ s : JVal,
      lookupPath s ["detection", "notification_threshold_minutes"] = none →
      get_notification_threshold false (some s) = some 600) := by
  constructor
  · intro v
    rfl
  · intro s h
    simp only [get_notification_threshold, get_setting, h, jnum,
      Option.getD_none, if_false, Bool.false_eq_true, Option.map_some]
    norm_num

/-- Witness for the amended C8: the empty settings object. -/
theorem config_load_never_validates_witness :
    load_settings (some (JVal.obj [])) = true ∧
    lookupPath (JVal.obj []) ["detection", "notification_threshold_minutes"]
      = none ∧
    get_notification_threshold false (some (JVal.obj [])) = some 600 :=
  ⟨config_load_never_validates.1 (JVal.obj []), rfl,
    config_load_never_validates.2 (JVal.obj []) rfl⟩

/-- Counterexample to claim C9: one record appended in debug mode is
dropped by load_all_detection_data (app.py line 1253 keeps only rows
whose mode column is "normal"), so the round trip does not return the
appended record. -/
theorem log_roundtrip_counterexample :
    load_all_detection_data (log_to_csv true "2025-01-01 00:00:00"
      "orange_start" "オレンジ" 80 10 0 "1.png" []) = [] ∧
    (log_to_csv true "2025-01-01 00:00:00" "orange_start" "オレンジ" 80 10 0
      "1.png" []).length = 1 := by
  constructor
  · rfl
  · rfl

/-- load_all_detection_data distributes over file concatenation. -/
lemma load_all_detection_data_append (a b : List CsvRow) :
    load_all_detection_data (a ++ b) =
      load_all_detection_data a ++ load_all_detection_data b := by
  simp [load_all_detection_data, List.filter_append]

/-- Claim C9 as amended: log_to_csv only ever appends, leaving every
previously written row unchanged and in place, and appending N records in
normal mode writes their rows in order; reading back through
load_all_detection_data returns exactly those N records in order,
provided the records were written in normal mode (debug rows are
filtered out on read) and their numeric fields carry at most one decimal
place (the "%.1f" write format rounds anything finer). -/
theorem log_append_roundtrip_amended (g : List CsvRow)
    (reqs : List AppendReq) :
    appendAll false reqs g = g ++ reqs.map (reqRow false) ∧
    ((∀ r ∈ reqs, fmt1 r.orange_percentage = r.orange_percentage ∧
        fmt1 r.green_percentage = r.green_percentage ∧
        fmt1 r.duration_seconds = r.duration_seconds) →
      load_all_detection_data (appendAll false reqs g) =
        load_all_detection_data g ++ reqs.map reqData) := by
  have happ : ∀ (rs : List AppendReq) (f : List CsvRow),
      appendAll false rs f = f ++ rs.map (reqRow false) := by
    intro rs
    induction rs with
    | nil => intro f; simp [appendAll]
    | cons r rest ih =>
      intro f
      have hstep : appendAll false (r :: rest) f =
          appendAll false rest (f ++ [reqRow false r]) := by
        simp [appendAll, log_to_csv, reqRow]
      rw [hstep, ih]
      simp
  refine ⟨happ reqs g, ?_⟩
  intro hfix
  rw [happ reqs g, load_all_detection_data_append]
  congr 1
  induction reqs with
  | nil => simp [load_all_detection_data]
  | cons r rest ih =>
    have hr := hfix r (List.mem_cons_self r rest)
    have hrest : ∀ x ∈ rest, fmt1 x.orange_percentage = x.orange_percentage ∧
        fmt1 x.green_percentage = x.green_percentage ∧
        fmt1 x.duration_seconds = x.duration_seconds :=
      fun x hx => hfix x (List.mem_cons_of_mem r hx)
    simp only [List.map_cons]
    rw [show load_all_detection_data (reqRow false r :: List.map (reqRow false) rest) =
        reqData r :: load_all_detection_data (List.map (reqRow false) rest) from ?_,
      ih hrest]
    simp only [load_all_detection_data, reqRow, List.filter_cons]
    simp [reqData, hr.1, hr.2.1, hr.2.2]

/-- Witness for the amended C9: one normal-mode record with one-decimal
numeric fields round-trips intact. -/
theorem log_append_roundtrip_witness :
    (∀ r ∈ [(⟨"2025-01-01 00:00:00", "orange_start", "オレンジ", 80, 10, 0,
        "1.png"⟩ : AppendReq)],
      fmt1 r.orange_percentage = r.orange_percentage ∧
      fmt1 r.green_percentage = r.green_percentage ∧
      fmt1 r.duration_seconds = r.duration_seconds) ∧
    load_all_detection_data (appendAll false
        [⟨"2025-01-01 00:00:00", "orange_start", "オレンジ", 80, 10, 0,
          "1.png"⟩] []) =
      load_all_detection_data [] ++
        [(⟨"2025-01-01 00:00:00", "orange_start", "オレンジ", 80, 10, 0,
          "1.png"⟩ : AppendReq)].map reqData := by
  have hfix : ∀ r ∈ [(⟨"2025-01-01 00:00:00", "orange_start", "オレンジ",
      80, 10, 0, "1.png"⟩ : AppendReq)],
      fmt1 r.orange_percentage = r.orange_percentage ∧
      fmt1 r.green_percentage = r.green_percentage ∧
      fmt1 r.duration_seconds = r.duration_seconds := by
    intro r hr
    simp only [List.mem_singleton] at hr
    subst hr
    refine ⟨?_, ?_, ?_⟩ <;> norm_num [fmt1, Rat.floor_def']
  exact ⟨hfix, (log_append_roundtrip_amended []
    [⟨"2025-01-01 00:00:00", "orange_start", "オレンジ", 80, 10, 0,
      "1.png"⟩]).2 hfix⟩

/-- Claim C10: comprehensive_judgment yields the 4-tuple shape exactly
when it receives two analysis results, and process_single_analysis, which
always unpacks four values, raises ValueError whenever exactly one of the
two region analyses succeeded (a one-element results list), instead of
completing with a clean failure result. -/
theorem judgment_arity_and_unpack_error :
    (∀ (cfg : DetectConfig) (results : List AnalysisResult),
        (comprehensive_judgment cfg results).isComplete =
          (results.length == 2)) ∧
    (∀ (cfg : DetectConfig) (thr : ℚ) (r : AnalysisResult)
        (image_file : String) (t : ℚ) (st : DetectionState),
        process_single_analysis cfg thr true true [r] image_file t st =
          .error "ValueError: not enough values to unpack (expected 4, got 3)") := by
  constructor
  · intro cfg results
    by_cases h : results.length = 2
    · simp only [comprehensive_judgment, h]
      simp only [ne_eq, not_true_eq_false, if_false]
      split <;> simp_all [JudgeOutput.isComplete]
    · simp [comprehensive_judgment, h, JudgeOutput.isComplete]
  · intro cfg thr r image_file t st
    simp [process_single_analysis, comprehensive_judgment]

/-- all_conditions_met of a score entry is exactly the three-condition
conjunction of the strict policy. -/
lemma all_conditions_met_iff (cfg : DetectConfig) (r : AnalysisResult) :
    (evalResult cfg r).all_conditions_met = true ↔ satisfiesAllThree cfg r := by
  simp [evalResult, satisfiesAllThree, and_assoc]

/-- Python max with a key returns the first element of maximal key. -/
lemma pickBest_mem (x : String × Score) (xs : List (String × Score)) :
    pickBest x xs ∈ x :: xs := by
  unfold pickBest
  induction xs generalizing x with
  | nil => simp
  | cons y ys ih =>
    simp only [List.foldl_cons]
    by_cases hxy : x.2.score < y.2.score
    · rw [if_pos hxy]
      rcases List.mem_cons.mp (ih y) with h | h
      · rw [h]
        exact List.mem_cons_of_mem x (List.mem_cons_self y ys)
      · exact List.mem_cons_of_mem x (List.mem_cons_of_mem y h)
    · rw [if_neg hxy]
      rcases List.mem_cons.mp (ih x) with h | h
      · rw [h]
        exact List.mem_cons_self x (y :: ys)
      · exact List.mem_cons_of_mem x (List.mem_cons_of_mem y h)

/-- Verdict and confidence when neither of the two regions meets every
condition. -/
lemma judgment_two_none (cfg : DetectConfig) (r1 r2 : AnalysisResult)
    (h1 : (evalResult cfg r1).all_conditions_met = false)
    (h2 : (evalResult cfg r2).all_conditions_met = false) :
    (comprehensive_judgment cfg [r1, r2]).judgmentOf = "不明" ∧
    (comprehensive_judgment cfg [r1, r2]).confidenceOf = 0 := by
  simp [comprehensive_judgment, h1, h2, JudgeOutput.judgmentOf,
    JudgeOutput.confidenceOf]

/-- Verdict and confidence when only the first region meets every
condition. -/
lemma judgment_two_first (cfg : DetectConfig) (r1 r2 : AnalysisResult)
    (h1 : (evalResult cfg r1).all_conditions_met = true)
    (h2 : (evalResult cfg r2).all_conditions_met = false) :
    (comprehensive_judgment cfg [r1, r2]).judgmentOf = r1.expected_color ∧
    (comprehensive_judgment cfg [r1, r2]).confidenceOf =
      min 95 (evalResult cfg r1).score := by
  simp [comprehensive_judgment, h1, h2, JudgeOutput.judgmentOf,
    JudgeOutput.confidenceOf, pickBest]

/-- Verdict and confidence when only the second region meets every
condition. -/
lemma judgment_two_second (cfg : DetectConfig) (r1 r2 : AnalysisResult)
    (h1 : (evalResult cfg r1).all_conditions_met = false)
    (h2 : (evalResult cfg r2).all_conditions_met = true) :
    (comprehensive_judgment cfg [r1, r2]).judgmentOf = r2.expected_color ∧
    (comprehensive_judgment cfg [r1, r2]).confidenceOf =
      min 95 (evalResult cfg r2).score := by
  simp [comprehensive_judgment, h1, h2, JudgeOutput.judgmentOf,
    JudgeOutput.confidenceOf, pickBest]

/-- Verdict and confidence when both regions meet every condition: the
higher score wins, the first on ties. -/
lemma judgment_two_both (cfg : DetectConfig) (r1 r2 : AnalysisResult)
    (h1 : (evalResult cfg r1).all_conditions_met = true)
    (h2 : (evalResult cfg r2).all_conditions_met = true) :
    (comprehensive_judgment cfg [r1, r2]).judgmentOf =
      (if (evalResult cfg r1).score < (evalResult cfg r2).score then
        r2.expected_color else r1.expected_color) ∧
    (comprehensive_judgment cfg [r1, r2]).confidenceOf =
      min 95 (if (evalResult cfg r1).score < (evalResult cfg r2).score then
        (evalResult cfg r2).score else (evalResult cfg r1).score) := by
  by_cases hlt : (evalResult cfg r1).score < (evalResult cfg r2).score <;>
    simp [comprehensive_judgment, h1, h2, JudgeOutput.judgmentOf,
      JudgeOutput.confidenceOf, pickBest, hlt]

/-- Bool complement of all_conditions_met_iff. -/
lemma all_conditions_not_met (cfg : DetectConfig) (r : AnalysisResult)
    (h : ¬ satisfiesAllThree cfg r) :
    (evalResult cfg r).all_conditions_met = false := by
  rcases Bool.eq_false_or_eq_true (evalResult cfg r).all_conditions_met with
    hb | hb
  · exact absurd ((all_conditions_met_iff cfg r).mp hb) h
  · exact hb

/-- Claim C1: on a pair of per-region results (orange-expected and
green-expected, percentages computed from pixel counts across both
classes), the judgment engine accepts a region's color only when that
region meets the percentage, brightness and pixel-count thresholds; when
neither region qualifies the verdict is unknown with confidence 0; when
both qualify the higher-scoring region is selected (the orange-expected
first region on ties, matching Python max). -/
theorem comprehensive_judgment_strict_policy (cfg : DetectConfig)
    (expO totO expG totG : Nat) (brO brG : ℚ) (ro rg : AnalysisResult)
    (hro : ro = mk_analysis_result "オレンジ" expO totO brO)
    (hrg : rg = mk_analysis_result "緑" expG totG brG) :
    ((comprehensive_judgment cfg [ro, rg]).judgmentOf = "オレンジ" →
      satisfiesAllThree cfg ro) ∧
    ((comprehensive_judgment cfg [ro, rg]).judgmentOf = "緑" →
      satisfiesAllThree cfg rg) ∧
    (¬satisfiesAllThree cfg ro → ¬satisfiesAllThree cfg rg →
      (comprehensive_judgment cfg [ro, rg]).judgmentOf = "不明" ∧
      (comprehensive_judgment cfg [ro, rg]).confidenceOf = 0) ∧
    (satisfiesAllThree cfg ro → ¬satisfiesAllThree cfg rg →
      (comprehensive_judgment cfg [ro, rg]).judgmentOf = "オレンジ") ∧
    (¬satisfiesAllThree cfg ro → satisfiesAllThree cfg rg →
      (comprehensive_judgment cfg [ro, rg]).judgmentOf = "緑") ∧
    (satisfiesAllThree cfg ro → satisfiesAllThree cfg rg →
      (comprehensive_judgment cfg [ro, rg]).judgmentOf =
        (if (evalResult cfg ro).score < (evalResult cfg rg).score then "緑"
          else "オレンジ")) := by
  have hco : ro.expected_color = "オレンジ" := by rw [hro]; rfl
  have hcg : rg.expected_color = "緑" := by rw [hrg]; rfl
  by_cases ho : satisfiesAllThree cfg ro <;>
    by_cases hg : satisfiesAllThree cfg rg
  · obtain ⟨hj, hc⟩ := judgment_two_both cfg ro rg
      ((all_conditions_met_iff cfg ro).mpr ho)
      ((all_conditions_met_iff cfg rg).mpr hg)
    rw [hco, hcg] at hj
    exact ⟨fun _ => ho, fun _ => hg, fun h _ => absurd ho h,
      fun _ h => absurd hg h, fun h _ => absurd ho h, fun _ _ => hj⟩
  · obtain ⟨hj, hc⟩ := judgment_two_first cfg ro rg
      ((all_conditions_met_iff cfg ro).mpr ho)
      (all_conditions_not_met cfg rg hg)
    rw [hco] at hj
    refine ⟨fun _ => ho, ?_, fun h _ => absurd ho h, fun _ _ => hj,
      fun h _ => absurd ho h, fun _ h => absurd h hg⟩
    intro h
    rw [hj] at h
    exact absurd h (by decide)
  · obtain ⟨hj, hc⟩ := judgment_two_second cfg ro rg
      (all_conditions_not_met cfg ro ho)
      ((all_conditions_met_iff cfg rg).mpr hg)
    rw [hcg] at hj
    refine ⟨?_, fun _ => hg, fun _ h => absurd hg h, fun h _ => absurd h ho,
      fun _ _ => hj, fun h _ => absurd h ho⟩
    intro h
    rw [hj] at h
    exact absurd h (by decide)
  · obtain ⟨hj, hc⟩ := judgment_two_none cfg ro rg
      (all_conditions_not_met cfg ro ho)
      (all_conditions_not_met cfg rg hg)
    refine ⟨?_, ?_, fun _ _ => ⟨hj, hc⟩, fun h _ => absurd h ho,
      fun _ h => absurd h hg, fun h _ => absurd h ho⟩
    · intro h
      rw [hj] at h
      exact absurd h (by decide)
    · intro h
      rw [hj] at h
      exact absurd h (by decide)

/-- Witness for C1: scenario A of the spec — the orange region at 80
percent, brightness 150, 2000 pixels; the green region at 10 percent. -/
theorem comprehensive_judgment_strict_policy_witness :
    satisfiesAllThree defaultConfig
      (mk_analysis_result "オレンジ" 2000 2500 150) ∧
    ¬satisfiesAllThree defaultConfig (mk_analysis_result "緑" 10 100 50) ∧
    (comprehensive_judgment defaultConfig
      [mk_analysis_result "オレンジ" 2000 2500 150,
       mk_analysis_result "緑" 10 100 50]).judgmentOf = "オレンジ" := by
  have hsat : satisfiesAllThree defaultConfig
      (mk_analysis_result "オレンジ" 2000 2500 150) := by
    refine ⟨?_, ?_, ?_⟩ <;> norm_num [mk_analysis_result, defaultConfig]
  have hnot : ¬ satisfiesAllThree defaultConfig
      (mk_analysis_result "緑" 10 100 50) := by
    intro hx
    have := hx.1
    norm_num [mk_analysis_result, defaultConfig] at this
  exact ⟨hsat, hnot, (comprehensive_judgment_strict_policy defaultConfig
    2000 2500 10 100 150 50 _ _ rfl rfl).2.2.2.1 hsat hnot⟩

/-- When all three conditions hold, the score is the percentage plus the
15-point brightness bonus plus the 10-point pixel bonus. -/
lemma score_of_all_met (cfg : DetectConfig) (r : AnalysisResult)
    (h : satisfiesAllThree cfg r) :
    (evalResult cfg r).score = r.percentage + 15 + 10 := by
  obtain ⟨h1, h2, h3⟩ := h
  simp [evalResult, h1, h2, h3]

/-- The score of a result with nonnegative percentage is nonnegative. -/
lemma score_nonneg (cfg : DetectConfig) (r : AnalysisResult)
    (hp : 0 ≤ r.percentage) : 0 ≤ (evalResult cfg r).score := by
  simp only [evalResult]
  refine add_nonneg (add_nonneg ?_ ?_) ?_ <;> split
  · exact hp
  · exact le_refl 0
  · norm_num
  · exact le_refl 0
  · norm_num
  · exact le_refl 0

/-- Claim C4: when exactly one region meets all three conditions the
confidence is min(95, percentage + 15 + 10), hence capped at 95; and on
every input whose percentages are nonnegative (as all count-derived
percentages are) the returned confidence lies in [0, 100], including the
unknown and incomplete verdicts. -/
theorem confidence_formula_and_bounds (cfg : DetectConfig)
    (ro rg : AnalysisResult) :
    (satisfiesAllThree cfg ro → ¬satisfiesAllThree cfg rg →
      (comprehensive_judgment cfg [ro, rg]).confidenceOf =
        min 95 (ro.percentage + 15 + 10)) ∧
    (¬satisfiesAllThree cfg ro → satisfiesAllThree cfg rg →
      (comprehensive_judgment cfg [ro, rg]).confidenceOf =
        min 95 (rg.percentage + 15 + 10)) ∧
    (∀ results : List AnalysisResult, (∀ r ∈ results, 0 ≤ r.percentage) →
      0 ≤ (comprehensive_judgment cfg results).confidenceOf ∧
      (comprehensive_judgment cfg results).confidenceOf ≤ 100) := by
  refine ⟨?_, ?_, ?_⟩
  · intro ho hg
    obtain ⟨hj, hc⟩ := judgment_two_first cfg ro rg
      ((all_conditions_met_iff cfg ro).mpr ho)
      (all_conditions_not_met cfg rg hg)
    rw [hc, score_of_all_met cfg ro ho]
  · intro ho hg
    obtain ⟨hj, hc⟩ := judgment_two_second cfg ro rg
      (all_conditions_not_met cfg ro ho)
      ((all_conditions_met_iff cfg rg).mpr hg)
    rw [hc, score_of_all_met cfg rg hg]
  · intro results hp
    by_cases hl : results.length = 2
    · have hlne : ¬ results.length ≠ 2 := by simp [hl]
      simp only [comprehensive_judgment, if_neg hlne]
      rcases hv : (results.map
          (fun r => (r.expected_color, evalResult cfg r))).filter
          (fun cs => cs.2.all_conditions_met) with _ | ⟨v, vs⟩
      · rw [hv]
        simp only [JudgeOutput.confidenceOf]
        norm_num
      · rw [hv]
        simp only [JudgeOutput.confidenceOf]
        have hmem : pickBest v vs ∈ (results.map
            (fun r => (r.expected_color, evalResult cfg r))).filter
            (fun cs => cs.2.all_conditions_met) := by
          rw [hv]
          exact pickBest_mem v vs
        have hmap : pickBest v vs ∈ results.map
            (fun r => (r.expected_color, evalResult cfg r)) :=
          (List.mem_filter.mp hmem).1
        obtain ⟨r, hr, heq⟩ := List.mem_map.mp hmap
        have hsc : (pickBest v vs).2 = evalResult cfg r :=
          congrArg Prod.snd heq.symm
        constructor
        · refine le_min (by norm_num) ?_
          rw [hsc]
          exact score_nonneg cfg r (hp r hr)
        · exact le_trans (min_le_left (95 : ℚ) _) (by norm_num)
    · simp only [comprehensive_judgment, if_pos hl, JudgeOutput.confidenceOf]
      norm_num

/-- Witness for C4: the scenario-A inputs give confidence
min(95, 80 + 15 + 10) = 95, inside [0, 100]. -/
theorem confidence_formula_and_bounds_witness :
    satisfiesAllThree defaultConfig
      (mk_analysis_result "オレンジ" 2000 2500 150) ∧
    ¬satisfiesAllThree defaultConfig (mk_analysis_result "緑" 10 100 50) ∧
    (comprehensive_judgment defaultConfig
      [mk_analysis_result "オレンジ" 2000 2500 150,
       mk_analysis_result "緑" 10 100 50]).confidenceOf =
      min 95 ((mk_analysis_result "オレンジ" 2000 2500 150).percentage +
        15 + 10) ∧
    (∀ r ∈ [mk_analysis_result "オレンジ" 2000 2500 150,
        mk_analysis_result "緑" 10 100 50], 0 ≤ r.percentage) ∧
    0 ≤ (comprehensive_judgment defaultConfig
      [mk_analysis_result "オレンジ" 2000 2500 150,
       mk_analysis_result "緑" 10 100 50]).confidenceOf ∧
    (comprehensive_judgment defaultConfig
      [mk_analysis_result "オレンジ" 2000 2500 150,
       mk_analysis_result "緑" 10 100 50]).confidenceOf ≤ 100 := by
  have hsat : satisfiesAllThree defaultConfig
      (mk_analysis_result "オレンジ" 2000 2500 150) := by
    refine ⟨?_, ?_, ?_⟩ <;> norm_num [mk_analysis_result, defaultConfig]
  have hnot : ¬ satisfiesAllThree defaultConfig
      (mk_analysis_result "緑" 10 100 50) := by
    intro hx
    have := hx.1
    norm_num [mk_analysis_result, defaultConfig] at this
  have hp : ∀ r ∈ [mk_analysis_result "オレンジ" 2000 2500 150,
      mk_analysis_result "緑" 10 100 50], 0 ≤ r.percentage := by
    intro r hr
    simp only [List.mem_cons, List.not_mem_nil, or_false] at hr
    rcases hr with hr | hr <;> rw [hr] <;> norm_num [mk_analysis_result]
  have hb := (confidence_formula_and_bounds defaultConfig
    (mk_analysis_result "オレンジ" 2000 2500 150)
    (mk_analysis_result "緑" 10 100 50)).2.2
    [mk_analysis_result "オレンジ" 2000 2500 150,
     mk_analysis_result "緑" 10 100 50] hp
  exact ⟨hsat, hnot, (confidence_formula_and_bounds defaultConfig
    (mk_analysis_result "オレンジ" 2000 2500 150)
    (mk_analysis_result "緑" 10 100 50)).1 hsat hnot, hp, hb.1, hb.2⟩

/-- The initial state satisfies the state-machine invariant. -/
lemma stateInv_init : StateInv initState := by
  constructor
  · simp [initState]
  · simp [initState]

/-- Any non-alert judgment (green or anything that is not the orange
string) resets the state to the cleared initial state in that same
transition. -/
lemma update_clears (thr : ℚ) (j : String) (op gp : ℚ) (im : String)
    (t : ℚ) (st : DetectionState) (hj : j ≠ "オレンジ") :
    (update_detection_state thr j op gp im t st).1 = initState := by
  obtain ⟨cs, ost, ns⟩ := st
  simp only [update_detection_state, if_neg hj]
  by_cases hg : j = "緑"
  · rw [if_pos hg]
    cases cs <;> cases ost <;> rfl
  · rw [if_neg hg]
    cases cs <;> cases ost <;> rfl

/-- One transition preserves the state-machine invariant. -/
lemma update_inv (thr : ℚ) (j : String) (op gp : ℚ) (im : String) (t : ℚ)
    (st : DetectionState) (h : StateInv st) :
    StateInv (update_detection_state thr j op gp im t st).1 := by
  by_cases hj : j = "オレンジ"
  · subst hj
    obtain ⟨cs, ost, ns⟩ := st
    cases cs
    · simp only [update_detection_state]
      norm_num [StateInv]
    · cases ns
      · cases ost with
        | none => exact absurd (h.1.mpr rfl) (by simp)
        | some t0 =>
          simp only [update_detection_state]
          norm_num
          split_ifs with hel
          · simp [StateInv]
          · simp [StateInv]
      · cases ost with
        | none => exact absurd (h.1.mpr rfl) (by simp)
        | some t0 => simp [update_detection_state, StateInv]
  · rw [update_clears thr j op gp im t st hj]
    exact stateInv_init

/-- The invariant holds along every trace from an invariant state. -/
lemma runMachine_inv (thr : ℚ) :
    ∀ (steps : List JStep) (st : DetectionState), StateInv st →
      StateInv (runMachine thr st steps).1 := by
  intro steps
  induction steps with
  | nil => intro st h; exact h
  | cons s rest ih =>
    intro st h
    simp only [runMachine]
    exact ih _ (update_inv thr s.judgment s.orange_percentage
      s.green_percentage s.image_file s.time st h)

/-- Claim C2: along every judgment sequence from the initial inactive
state, the episode start time is non-null exactly when the state is
active and the notified flag is only set while active; and any non-alert
judgment (green or unknown) clears all three fields atomically in that
transition. -/
theorem detection_state_invariant_and_clear :
    (∀ (thr : ℚ) (steps : List JStep),
        StateInv (runMachine thr initState steps).1) ∧
    (∀ (thr : ℚ) (j : String) (op gp : ℚ) (im : String) (t : ℚ)
        (st : DetectionState), j ≠ "オレンジ" →
        (update_detection_state thr j op gp im t st).1 = initState) :=
  ⟨fun thr steps => runMachine_inv thr steps initState stateInv_init,
   fun thr j op gp im t st hj => update_clears thr j op gp im t st hj⟩

/-- Witness for C2: a green judgment clears a fully set state. -/
theorem detection_state_invariant_witness :
    ("緑" : String) ≠ "オレンジ" ∧
    (update_detection_state 600 "緑" 0 0 "a.png" 5
      ⟨true, some 1, true⟩).1 = initState :=
  ⟨by decide, detection_state_invariant_and_clear.2 600 "緑" 0 0 "a.png" 5
    ⟨true, some 1, true⟩ (by decide)⟩

/-- An orange judgment while active and already notified is a no-op: the
state is unchanged, nothing is logged, and no notification fires. -/
lemma orange_noop (thr : ℚ) (op gp : ℚ) (im : String) (t : ℚ)
    (st : DetectionState) (hc : st.current_state = true)
    (hn : st.notification_sent = true) :
    update_detection_state thr "オレンジ" op gp im t st = (st, [], false) := by
  obtain ⟨cs, ost, ns⟩ := st
  cases cs
  · simp at hc
  · cases ns
    · simp at hn
    · cases ost <;> simp [update_detection_state]

/-- An orange transition fires the notifier exactly when the state is
active, not yet notified, and the elapsed time since the recorded episode
start has reached the threshold. -/
lemma orange_fired_iff (thr : ℚ) (op gp : ℚ) (im : String) (t : ℚ)
    (st : DetectionState) :
    ((update_detection_state thr "オレンジ" op gp im t st).2.2 = true ↔
      st.current_state = true ∧ st.notification_sent = false ∧
      ∃ t0, st.orange_detection_start_time = some t0 ∧ thr ≤ t - t0) := by
  obtain ⟨cs, ost, ns⟩ := st
  cases cs
  · cases ost <;> simp [update_detection_state]
  · cases ns
    · cases ost with
      | none => simp [update_detection_state]
      | some t0 =>
        simp only [update_detection_state]
        norm_num
        split_ifs with hel
        · simpa using hel
        · simpa using hel
    · cases ost <;> simp [update_detection_state]

/-- After a transition that fires the notifier, the state is active with
the notified flag set. -/
lemma orange_fired_state (thr : ℚ) (op gp : ℚ) (im : String) (t : ℚ)
    (st : DetectionState)
    (hf : (update_detection_state thr "オレンジ" op gp im t st).2.2 = true) :
    (update_detection_state thr "オレンジ" op gp im t st).1.current_state
      = true ∧
    (update_detection_state thr "オレンジ" op gp im t st).1.notification_sent
      = true := by
  obtain ⟨cs, ost, ns⟩ := st
  cases cs
  · cases ost <;> simp [update_detection_state] at hf
  · cases ns
    · cases ost with
      | none => simp [update_detection_state] at hf
      | some t0 =>
        by_cases hel : thr ≤ t - t0
        · simp [update_detection_state, hel]
        · simp [update_detection_state, hel] at hf
    · cases ost <;> simp [update_detection_state] at hf

/-- An all-orange run from a state that is active and already notified
fires no notification at all. -/
lemma runMachine_orange_notified_zero (thr : ℚ) :
    ∀ (steps : List JStep) (st : DetectionState),
      (∀ s ∈ steps, s.judgment = "オレンジ") →
      st.current_state = true → st.notification_sent = true →
      (runMachine thr st steps).2.2 = 0 := by
  intro steps
  induction steps with
  | nil => intro st _ _ _; rfl
  | cons s rest ih =>
    intro st hall hc hn
    have hs : s.judgment = "オレンジ" := hall s (List.mem_cons_self s rest)
    simp only [runMachine, hs,
      orange_noop thr s.orange_percentage s.green_percentage s.image_file
        s.time st hc hn]
    simpa using ih st (fun x hx => hall x (List.mem_cons_of_mem s hx)) hc hn

/-- An all-orange run from any state fires at most one notification. -/
lemma runMachine_orange_le_one (thr : ℚ) :
    ∀ (steps : List JStep) (st : DetectionState),
      (∀ s ∈ steps, s.judgment = "オレンジ") →
      (runMachine thr st steps).2.2 ≤ 1 := by
  intro steps
  induction steps with
  | nil => intro st _; simp [runMachine]
  | cons s rest ih =>
    intro st hall
    have hs : s.judgment = "オレンジ" := hall s (List.mem_cons_self s rest)
    have hrest : ∀ x ∈ rest, x.judgment = "オレンジ" :=
      fun x hx => hall x (List.mem_cons_of_mem s hx)
    simp only [runMachine, hs]
    cases hf : (update_detection_state thr "オレンジ" s.orange_percentage
        s.green_percentage s.image_file s.time st).2.2 with
    | false =>
      simpa using ih _ hrest
    | true =>
      have h2 := orange_fired_state thr s.orange_percentage
        s.green_percentage s.image_file s.time st hf
      rw [runMachine_orange_notified_zero thr rest _ hrest h2.1 h2.2]
      simp

/-- Claim C3: within one alert episode (a run of consecutive orange
judgments) at most one notification fires; an orange judgment while
active and already notified is a no-op; and a transition fires exactly
when the state is active, not yet notified, and the elapsed time since
the episode start has reached the threshold — so the first such judgment
fires the single notification. -/
theorem notification_at_most_once :
    (∀ (thr : ℚ) (st : DetectionState) (steps : List JStep),
        (∀ s ∈ steps, s.judgment = "オレンジ") →
        (runMachine thr st steps).2.2 ≤ 1) ∧
    (∀ (thr op gp : ℚ) (im : String) (t : ℚ) (st : DetectionState),
        st.current_state = true → st.notification_sent = true →
        update_detection_state thr "オレンジ" op gp im t st = (st, [], false)) ∧
    (∀ (thr op gp : ℚ) (im : String) (t : ℚ) (st : DetectionState),
        ((update_detection_state thr "オレンジ" op gp im t st).2.2 = true ↔
          st.current_state = true ∧ st.notification_sent = false ∧
          ∃ t0, st.orange_detection_start_time = some t0 ∧ thr ≤ t - t0)) :=
  ⟨fun thr st steps h => runMachine_orange_le_one thr steps st h,
   fun thr op gp im t st hc hn => orange_noop thr op gp im t st hc hn,
   fun thr op gp im t st => orange_fired_iff thr op gp im t st⟩

/-- Witness for C3: an eleven-hundred-second orange episode against the
600-second default threshold fires at most one notification. -/
theorem notification_at_most_once_witness :
    (∀ s ∈ [(⟨"オレンジ", 0, 0, "1.png", 0⟩ : JStep),
        ⟨"オレンジ", 0, 0, "2.png", 700⟩, ⟨"オレンジ", 0, 0, "3.png", 1400⟩],
      s.judgment = "オレンジ") ∧
    (runMachine 600 initState [⟨"オレンジ", 0, 0, "1.png", 0⟩,
      ⟨"オレンジ", 0, 0, "2.png", 700⟩,
      ⟨"オレンジ", 0, 0, "3.png", 1400⟩]).2.2 ≤ 1 := by
  have hall : ∀ s ∈ [(⟨"オレンジ", 0, 0, "1.png", 0⟩ : JStep),
      ⟨"オレンジ", 0, 0, "2.png", 700⟩, ⟨"オレンジ", 0, 0, "3.png", 1400⟩],
      s.judgment = "オレンジ" := by
    intro s hs
    simp only [List.mem_cons, List.not_mem_nil, or_false] at hs
    rcases hs with hs | hs | hs <;> rw [hs]
  exact ⟨hall, notification_at_most_once.1 600 initState _ hall⟩

/-! ## Debug-mode time scaling (main.py lines 396-400 and 1018-1025) -/

/-- Scales the wall-clock content of a state by a constant factor. -/
def scaleState (c : ℚ) (st : DetectionState) : DetectionState :=
  { st with orange_detection_start_time :=
      st.orange_detection_start_time.map (fun t => c * t) }

/-- Scales the duration column of a log record by a constant factor. -/
def scaleEvent (c : ℚ) (e : CsvEvent) : CsvEvent :=
  { e with duration_seconds := c * e.duration_seconds }

/-- Scales the wall-clock time of a sampling cycle by a constant factor. -/
def scaleStep (c : ℚ) (s : JStep) : JStep :=
  { s with time := c * s.time }

/-- One transition commutes with time scaling by a positive factor. -/
lemma update_scale (c : ℚ) (hc : 0 < c) (thr : ℚ) (j : String) (op gp : ℚ)
    (im : String) (t : ℚ) (st : DetectionState) :
    update_detection_state (c * thr) j op gp im (c * t) (scaleState c st) =
      (scaleState c (update_detection_state thr j op gp im t st).1,
       (update_detection_state thr j op gp im t st).2.1.map (scaleEvent c),
       (update_detection_state thr j op gp im t st).2.2) := by
  obtain ⟨cs, ost, ns⟩ := st
  by_cases hj : j = "オレンジ"
  · subst hj
    cases cs
    · cases ost <;>
        simp [update_detection_state, scaleState, scaleEvent]
    · cases ns
      · cases ost with
        | none => simp [update_detection_state, scaleState, scaleEvent]
        | some t0 =>
          have hiff : c * thr ≤ c * t - c * t0 ↔ thr ≤ t - t0 := by
            rw [← mul_sub]
            exact mul_le_mul_left hc
          by_cases hel : thr ≤ t - t0
          · have h2 : c * thr ≤ c * t - c * t0 := hiff.mpr hel
            simp [update_detection_state, scaleState, scaleEvent, hel, h2,
              mul_sub]
          · have h2 : ¬ (c * thr ≤ c * t - c * t0) := fun hx =>
              hel (hiff.mp hx)
            simp [update_detection_state, scaleState, scaleEvent, hel, h2,
              mul_sub]
      · cases ost <;> simp [update_detection_state, scaleState, scaleEvent]
  · by_cases hg : j = "緑" <;>
      cases cs <;> cases ost <;>
      simp [update_detection_state, hj, hg, scaleState, scaleEvent,
        initState, mul_sub]

/-- A whole run commutes with time scaling by a positive factor: same
transitions, same events up to scaled durations, same notifications. -/
lemma runMachine_scale (c : ℚ) (hc : 0 < c) (thr : ℚ) :
    ∀ (steps : List JStep) (st : DetectionState),
      runMachine (c * thr) (scaleState c st) (steps.map (scaleStep c)) =
        (scaleState c (runMachine thr st steps).1,
         (runMachine thr st steps).2.1.map (scaleEvent c),
         (runMachine thr st steps).2.2) := by
  intro steps
  induction steps with
  | nil => intro st; simp [runMachine]
  | cons s rest ih =>
    intro st
    simp only [List.map_cons, runMachine, scaleStep]
    simp only [update_scale c hc thr s.judgment s.orange_percentage
      s.green_percentage s.image_file s.time, ih]
    simp [List.map_append]

/-- Counterexample to the mechanism part of claim C7: the debug branch of
get_notification_threshold reads a separate configuration key
(debug_notification_threshold_seconds) instead of scaling the normal
threshold; configuring 7 there while the normal threshold is 10 minutes
yields 7 versus 600 seconds, which is not the 60-fold pure multiplier
the claim asserts. -/
theorem debug_threshold_counterexample :
    get_notification_threshold true (some (JVal.obj [("detection",
      JVal.obj [("debug_notification_threshold_seconds", JVal.num 7),
        ("notification_threshold_minutes", JVal.num 10)])])) = some 7 ∧
    get_notification_threshold false (some (JVal.obj [("detection",
      JVal.obj [("debug_notification_threshold_seconds", JVal.num 7),
        ("notification_threshold_minutes", JVal.num 10)])])) = some 600 ∧
    (60 : ℚ) * 7 ≠ 600 := by
  refine ⟨rfl, ?_, by norm_num⟩
  simp [get_notification_threshold, get_setting, lookupPath, jget, jnum]
  norm_num

/-- Claim C7 as amended: with the default configuration (debug threshold
10 seconds, normal threshold 10 minutes = 600 seconds) a debug-mode run
is exactly the 60-fold time-scaled image of the normal-mode run — same
transitions, same events with durations scaled, the same notification
count — although the debug switch is implemented as a branch reading a
separate configuration key rather than a multiplier on the same value. -/
theorem debug_scaling_equivalence :
    get_notification_threshold false none = some 600 ∧
    get_notification_threshold true none = some 10 ∧
    (∀ steps : List JStep,
      runMachine 600 initState (steps.map (scaleStep 60)) =
        (scaleState 60 (runMachine 10 initState steps).1,
         (runMachine 10 initState steps).2.1.map (scaleEvent 60),
         (runMachine 10 initState steps).2.2)) := by
  refine ⟨?_, rfl, ?_⟩
  · simp only [get_notification_threshold, get_setting, jnum,
      Bool.false_eq_true, if_false, Option.map]
    norm_num
  · intro steps
    have h := runMachine_scale 60 (by norm_num) 10 steps initState
    rw [show scaleState 60 initState = initState from rfl] at h
    rw [show (60 : ℚ) * 10 = 600 from by norm_num] at h
    exact h
